import Mathlib

/-!
Verification of the TeraBox link-resolver bot (two variants: `bot.py` and
`app/` package).  The Python functions relevant to the claims are shallowly
embedded below: pure string manipulation is translated directly, network
I/O is abstracted as an oracle (`NetEnv`, `HttpStream`) describing the
responses the remote endpoints would return, and Python exceptions are made
explicit as `Except PyExn` results.  Python truthiness, `dict.get`,
`str.replace`, `str.index`, `int(...)` and `urllib.parse` netloc/path/query
splitting are modelled on character lists so that every definition is
executable and reducible by the kernel.  ASCII-level behaviour is modelled
exactly; percent-decoding in query parsing and the textual repr of JSON
containers inside f-strings are abbreviated (no theorem below depends on
either).
-/

/-! ## Python/JSON value model -/

/-- Python exception kinds that can escape the embedded code. -/
inductive PyExn
  | attributeError
  | valueError
  | typeError
  | keyError
  | indexError
deriving DecidableEq, Repr

/-- JSON values as returned by `resp.json()`; numbers restricted to integers
(the upstream fields used are `errno`, `size`, and string fields). -/
inductive JVal
  | null
  | jbool (b : Bool)
  | jnum (n : Int)
  | jstr (s : String)
  | jarr (xs : List JVal)
  | jobj (fs : List (String × JVal))

/-- Python truthiness of a JSON value (`bool(x)`). -/
def JVal.truthy : JVal → Bool
  | .null => false
  | .jbool b => b
  | .jnum n => n != 0
  | .jstr s => !s.data.isEmpty
  | .jarr l => !l.isEmpty
  | .jobj l => !l.isEmpty

/-- First-match association lookup inside a JSON object. -/
def jlookup : List (String × JVal) → String → Option JVal
  | [], _ => none
  | (k', v) :: rest, k => if k' = k then some v else jlookup rest k

/-- `x or y` on Python values: `x` if truthy, else `y`. -/
def pyOr (a b : JVal) : JVal := if a.truthy then a else b

/-- `v.get(k)` — `dict.get` with default `None`; raises `AttributeError`
when `v` is not a dict. -/
def pyGet (v : JVal) (k : String) : Except PyExn JVal :=
  match v with
  | .jobj fs => .ok ((jlookup fs k).getD .null)
  | _ => .error .attributeError

/-- `v[0]` — subscripting the first element: lists yield the head, strings
the first character, dicts raise `KeyError` (no integer keys in JSON
objects), everything else `TypeError`; empty sequences raise `IndexError`. -/
def pyIndex0 : JVal → Except PyExn JVal
  | .jarr (x :: _) => .ok x
  | .jarr [] => .error .indexError
  | .jstr s =>
    match s.data with
    | c :: _ => .ok (.jstr (String.mk [c]))
    | [] => .error .indexError
  | .jobj _ => .error .keyError
  | _ => .error .typeError

/-- Digits of a non-empty decimal numeral, or `none`. -/
def digitsVal : List Char → Option Nat
  | [] => none
  | l => if l.all Char.isDigit then some (l.foldl (fun a c => a * 10 + (c.toNat - 48)) 0) else none

/-- ASCII-decimal reading of `int(s)` on a string: optional surrounding
spaces, optional sign, decimal digits; `none` models `ValueError`. -/
def parseIntStr (s : String) : Option Int :=
  match (s.data.dropWhile (· = ' ')).reverse.dropWhile (· = ' ') |>.reverse with
  | '-' :: rest => (digitsVal rest).map (fun n => -(n : Int))
  | '+' :: rest => (digitsVal rest).map (fun n => (n : Int))
  | l => (digitsVal l).map (fun n => (n : Int))

/-- `int(x)` on a Python value: ints pass through, bools coerce, numeric
strings parse, everything else raises. -/
def pyToInt : JVal → Except PyExn Int
  | .jnum n => .ok n
  | .jbool b => .ok (if b then 1 else 0)
  | .jstr s =>
    match parseIntStr s with
    | some n => .ok n
    | none => .error .valueError
  | _ => .error .typeError

/-- Rendering of a value inside an f-string (`str(x)`); the repr of
containers is abbreviated, no theorem depends on it. -/
def pyFStr : JVal → String
  | .null => "None"
  | .jbool true => "True"
  | .jbool false => "False"
  | .jnum n => toString n
  | .jstr s => s
  | .jarr _ => "[…]"
  | .jobj _ => "\x7b…\x7d"

/-! ## String helpers (`bot.py` small utils and `urllib.parse` model) -/

/-- Does `pat` occur as a contiguous substring of `hay`?  (Semantics of
`re.search` with a fully-escaped literal pattern, and of Python `in`.) -/
def occursB (pat hay : List Char) : Bool := hay.tails.any (fun t => pat.isPrefixOf t)

/-- First index `≥ start` at which `pat` occurs in `hay` (Python
`str.index(pat, start)`), or `none` (`ValueError`). -/
def findSubFrom (hay pat : List Char) (start : Nat) : Option Nat :=
  (List.range (hay.length + 1)).find? (fun i => start ≤ i && pat.isPrefixOf (hay.drop i))

/-- `find_between(hay, left, right)` from `bot.py`: the text strictly between
the first occurrence of `left` and the next occurrence of `right`. -/
def find_between (hay left right : String) : Option String :=
  match findSubFrom hay.data left.data 0 with
  | none => none
  | some i0 =>
    let i := i0 + left.data.length
    match findSubFrom hay.data right.data i with
    | none => none
    | some j => some (String.mk ((hay.data.drop i).take (j - i)))

/-- Fuel-indexed left-to-right non-overlapping replacement (`str.replace`
with a non-empty pattern); fuel = length of the haystack suffices. -/
def replaceFuel (pat rep : List Char) : Nat → List Char → List Char
  | 0, l => l
  | Nat.succ fuel, l =>
    if pat ≠ [] && pat.isPrefixOf l then rep ++ replaceFuel pat rep fuel (l.drop pat.length)
    else
      match l with
      | [] => []
      | c :: rest => c :: replaceFuel pat rep fuel rest

/-- `s.replace(pat, rep)` for a non-empty pattern. -/
def pyReplace (s pat rep : String) : String :=
  String.mk (replaceFuel pat.data rep.data s.data.length s.data)

/-- `s.split(sep)` for a single-character separator. -/
def splitOnChar (sep : Char) : List Char → List (List Char)
  | [] => [[]]
  | c :: rest =>
    let r := splitOnChar sep rest
    if c = sep then [] :: r
    else
      match r with
      | h :: t => (c :: h) :: t
      | [] => [[c]]

/-- Characters permitted in a URL scheme (`urllib.parse.scheme_chars`). -/
def schemeChar (c : Char) : Bool := c.isAlphanum || c = '+' || c = '-' || c = '.'

/-- Strip a leading `scheme:` as `urlsplit` does: only when the first `:`
is preceded by an alphabetic initial and scheme characters. -/
def splitSchemeRest (l : List Char) : List Char :=
  match l.findIdx? (· = ':') with
  | none => l
  | some i =>
    if (decide (0 < i) && (match l.head? with | some c => c.isAlpha | none => false)
        && (l.take i).all schemeChar) = true then
      l.drop (i + 1)
    else l

/-- The WHATWG C0-control-or-space class (code points 0x00–0x20) that
`urlsplit` strips from the front of the URL. -/
def c0ControlOrSpace (c : Char) : Bool := c.toNat ≤ 32

/-- The unsafe bytes (`\t`, `\r`, `\n`) that `urlsplit` removes from the
URL everywhere before parsing. -/
def unsafeUrlByte (c : Char) : Bool := c = '\t' || c = '\r' || c = '\n'

/-- `urlsplit`'s input sanitization: strip leading C0-control/space
characters, then delete every tab, CR and LF (the successive
`url.replace(b, "")` calls over the three unsafe bytes amount to one
filter). -/
def urlSanitize (l : List Char) : List Char :=
  (l.dropWhile c0ControlOrSpace).filter (fun c => !unsafeUrlByte c)

/-- `urlsplit` netloc, after input sanitization: the run after a leading
`//` up to `/`, `?` or `#`. -/
def urlNetloc (l : List Char) : List Char :=
  let rest := splitSchemeRest (urlSanitize l)
  if rest.take 2 = ['/', '/'] then
    (rest.drop 2).takeWhile (fun c => ¬(c = '/' ∨ c = '?' ∨ c = '#'))
  else []

/-- The part of the sanitized URL following the netloc (path, query and
fragment). -/
def urlRestAfterNetloc (l : List Char) : List Char :=
  let rest := splitSchemeRest (urlSanitize l)
  if rest.take 2 = ['/', '/'] then
    (rest.drop 2).dropWhile (fun c => ¬(c = '/' ∨ c = '?' ∨ c = '#'))
  else rest

/-- netloc, path and query of a URL, following `urlsplit`'s order:
netloc first, then the fragment is cut at the first `#`, then the query at
the first `?`. -/
def urlSplitParts (l : List Char) : List Char × List Char × List Char :=
  let netloc := urlNetloc l
  let rest := urlRestAfterNetloc l
  let beforeFrag := rest.takeWhile (· ≠ '#')
  (netloc, beforeFrag.takeWhile (· ≠ '?'), (beforeFrag.dropWhile (· ≠ '?')).drop 1)

/-- `urlsplit` raises `ValueError` ("Invalid IPv6 URL") on a netloc with an
unbalanced bracket. -/
def bracketsBad (netloc : List Char) : Bool :=
  (netloc.contains '[' && !netloc.contains ']') || (netloc.contains ']' && !netloc.contains '[')

/-- `+` decodes to space in query strings (percent-decoding omitted; no
input used below contains an escape). -/
def plusSpace (c : Char) : Char := if c = '+' then ' ' else c

/-- `urllib.parse.parse_qsl` with default arguments: split on `&`, split
each field once on `=`, skip empty fields, fields without `=` and blank
values. -/
def parse_qsl (query : List Char) : List (List Char × List Char) :=
  (splitOnChar '&' query).filterMap fun field =>
    if field = [] then none
    else
      match field.findIdx? (· = '=') with
      | none => none
      | some i =>
        let value := field.drop (i + 1)
        if value = [] then none
        else some ((field.take i).map plusSpace, value.map plusSpace)

/-- First `surl` value of the parsed query (`parse_qs(q)["surl"][0]`). -/
def surlFirst (pairs : List (List Char × List Char)) : Option (List Char) :=
  (pairs.filterMap (fun p => if p.1 = "surl".data then some p.2 else none)).head?

/-- `extract_short_code` from `bot.py`: the `/s/<code>` path component if
present and non-empty, else the first `surl` query value; all exceptions
(unbalanced-bracket `ValueError` from `urlparse`, `list.index` failure) are
caught and yield `none`. -/
def extract_short_code (url : String) : Option String :=
  let parts3 := urlSplitParts url.data
  if bracketsBad parts3.1 then none
  else
    let path := parts3.2.1
    let query := parts3.2.2
    let step : Except Unit (Option String) :=
      if occursB "/s/".data path then
        let parts := splitOnChar '/' path
        match parts.findIdx? (· = "s".data) with
        | none => .error ()
        | some idx =>
          match (if idx + 1 < parts.length then parts.get? (idx + 1) else none) with
          | some code => if code ≠ [] then .ok (some (String.mk code)) else .ok none
          | none => .ok none
      else .ok none
    match step with
    | .error _ => none
    | .ok (some c) => some c
    | .ok none =>
      match surlFirst (parse_qsl query) with
      | some v => some (String.mk v)
      | none => none

/-- Truthiness of an `Optional[str]`: `None` and `""` are falsy. -/
def truthyOptStr : Option String → Bool
  | none => false
  | some s => !s.data.isEmpty

/-- `a or b` on `Optional[str]` values. -/
def pyOrOptStr (a b : Option String) : Option String := if truthyOptStr a then a else b

/-- `x or None` on an `Optional[str]`: an empty string collapses to `None`. -/
def pyOrNoneStr (a : Option String) : Option String := if truthyOptStr a then a else none

/-! ## UrlMatcher (`is_terabox_url` in `bot.py`, `is_allowed_domain` in
`app/bot.py`) -/

/-- The regex allow-list of `is_terabox_url`; every pattern is a literal
with escaped dots, so `re.search` is substring containment. -/
def TERABOX_PATTERNS : List String :=
  ["terabox.com", "teraboxapp.com", "terabox.app",
   "nephobox.com", "mirrobox.com", "freeterabox.com",
   "tibibox.com", "teraboxlink.com"]

/-- `is_terabox_url(url)`: does any allow-listed pattern occur anywhere in
the whole URL string (case-sensitively)? -/
def is_terabox_url (url : String) : Bool :=
  TERABOX_PATTERNS.any (fun p => occursB p.data url.data)

/-- The `ALLOWED_DOMAINS` set of `app/bot.py`. -/
def ALLOWED_DOMAINS : List String := ["terabox.com", "terabox.app", "1024tera.com"]

/-- `is_allowed_domain(url)`: any allow-listed domain occurs in the
lowercased netloc; `urlparse` exceptions are caught and yield `false`. -/
def is_allowed_domain (url : String) : Bool :=
  let netloc := urlNetloc url.data
  if bracketsBad netloc then false
  else
    let nl := netloc.map Char.toLower
    ALLOWED_DOMAINS.any (fun d => occursB d.data nl)

/-! ## LinkResolver (`resolve_terabox` in `bot.py`) -/

/-- The `ResolveResult` dataclass; fields default to `None`.  String-typed
upstream fields are kept as `JVal` because the Python code stores whatever
the JSON contained without checking its type. -/
structure ResolveResult where
  ok : Bool
  error : Option String := none
  file_name : Option JVal := none
  file_size : Option Int := none
  dlink : Option JVal := none
  direct_link : Option JVal := none
  thumb : Option JVal := none
  source : Option String := none

/-- `ResolveResult(ok=False, error=msg)`. -/
def ResolveResult.fail (msg : String) : ResolveResult := { ok := false, error := some msg }

/-- Network calls `resolve_terabox` can issue, in order. -/
inductive NetCall
  | pageGet
  | listGet
  | headProbe
deriving DecidableEq, Repr

/-- Oracle for the three network interactions of one resolution: the share
page `GET` (status, body text, final URL after redirects), the
`/share/list` `GET`+`json()` (combined, both live in one `try`), and the
no-redirect `HEAD` probe (its `Location` header, if any).  An `error`
carries `str(e)` of the raised exception. -/
structure NetEnv where
  pageResp : Except String (Nat × String × String)
  listResp : Except String JVal
  headResp : Except String (Option String)

/-- Error message for a failed initial fetch (`UpstreamHttpError` at the
transport level in the spec's taxonomy). -/
def fetchFailedMsg (e : String) : String := "Fetch failed: " ++ e

/-- Error message for a non-200 share-page status — the code's rendering of
the spec's `UpstreamHttpError`. -/
def httpStatusMsg (status : Nat) : String := "HTTP " ++ toString status ++ " on initial URL"

/-- Error message for absent scraped tokens — the spec's `MissingParameters`. -/
def missingParamsMsg : String :=
  "Missing required parameters (short/logid/jsToken) — link may be private."

/-- Error message for a failed `/share/list` fetch or JSON decode. -/
def shareListFailedMsg (e : String) : String := "Failed loading share/list: " ++ e

/-- Error message for a truthy `errno` — the spec's `UpstreamApiError`. -/
def apiErrorMsg (errno : JVal) : String := "TeraBox API error: errno=" ++ pyFStr errno

/-- Error message for an empty listing — the spec's `NoFilesFound`. -/
def noFilesMsg : String := "No files found in this share."

/-- Error message for a missing `dlink` — the spec's `NoDownloadLink`. -/
def noDlinkMsg : String := "No downloadable link exposed (private or unsupported)."

/-- `(file0.get("thumbs") or {}).get("url3", default_thumb)`: two-argument
`dict.get` with a default; raises `AttributeError` on a truthy non-dict. -/
def thumbGet (v : JVal) (k : String) (dflt : Option String) : Except PyExn (Option JVal) :=
  match v with
  | .jobj fs =>
    .ok (match jlookup fs k with
         | some x => some x
         | none => dflt.map JVal.jstr)
  | _ => .error .attributeError

/-- `head.headers.get("location") or dlink` with the surrounding
`try/except` — the probe's `Location` header if present and non-empty,
else the source `dlink`. -/
def headDirect (env : NetEnv) (dlink : JVal) : JVal :=
  match env.headResp with
  | .error _ => dlink
  | .ok (some l) => if l = "" then dlink else .jstr l
  | .ok none => dlink

/-- Steps of `resolve_terabox` over the first listing item `file0`
(`bot.py` lines 289–313): field extraction in source order — `dlink`,
`server_filename`, `size` (through `int(...)`), `thumbs` — then the
missing-`dlink` check, then the `HEAD` probe. -/
def itemStage (default_thumb : Option String) (env : NetEnv) (file0 : JVal) :
    Except PyExn ResolveResult × List NetCall :=
  match pyGet file0 "dlink" with
  | .error ex => (.error ex, [.listGet])
  | .ok dlink =>
    match pyGet file0 "server_filename" with
    | .error ex => (.error ex, [.listGet])
    | .ok fnameRaw =>
      let fname := pyOr fnameRaw (.jstr "file")
      match pyGet file0 "size" with
      | .error ex => (.error ex, [.listGet])
      | .ok sizeRaw =>
        match pyToInt (pyOr sizeRaw (.jnum 0)) with
        | .error ex => (.error ex, [.listGet])
        | .ok fsize =>
          match pyGet file0 "thumbs" with
          | .error ex => (.error ex, [.listGet])
          | .ok thumbsRaw =>
            match thumbGet (pyOr thumbsRaw (.jobj [])) "url3" default_thumb with
            | .error ex => (.error ex, [.listGet])
            | .ok thumb =>
              if dlink.truthy = false then (.ok (.fail noDlinkMsg), [.listGet])
              else
                (.ok { ok := true, error := none, file_name := some fname,
                       file_size := some fsize, dlink := some dlink,
                       direct_link := some (headDirect env dlink), thumb := thumb,
                       source := some "share/list" },
                 [.listGet, .headProbe])

/-- Steps of `resolve_terabox` from the `/share/list` call on (`bot.py`
lines 276–313): fetch+decode, the truthy-`errno` check, `list or []`, the
empty-listing check, `items[0]`, then `itemStage`. -/
def listStage (default_thumb : Option String) (env : NetEnv) :
    Except PyExn ResolveResult × List NetCall :=
  match env.listResp with
  | .error e => (.ok (.fail (shareListFailedMsg e)), [.listGet])
  | .ok data =>
    match pyGet data "errno" with
    | .error ex => (.error ex, [.listGet])
    | .ok errno =>
      if errno.truthy then (.ok (.fail (apiErrorMsg errno)), [.listGet])
      else
        match pyGet data "list" with
        | .error ex => (.error ex, [.listGet])
        | .ok lraw =>
          let items := pyOr lraw (.jarr [])
          if items.truthy = false then (.ok (.fail noFilesMsg), [.listGet])
          else
            match pyIndex0 items with
            | .error ex => (.error ex, [.listGet])
            | .ok file0 => itemStage default_thumb env file0

/-- `resolve_terabox(url)` (`bot.py` lines 243–313): mirror-domain
normalisation, the share-page fetch with its status check, token scraping
(`og:image` thumb, `dp-logid`, `jsToken`, short code from the final or
original URL), then `listStage`.  The second component records which
network calls were issued. -/
def resolve_terabox (url : String) (env : NetEnv) :
    Except PyExn ResolveResult × List NetCall :=
  let url := pyReplace url "teraboxlink.com" "terabox.com"
  match env.pageResp with
  | .error e => (.ok (.fail (fetchFailedMsg e)), [.pageGet])
  | .ok (status, html, finalUrl) =>
    if status ≠ 200 then (.ok (.fail (httpStatusMsg status)), [.pageGet])
    else
      let default_thumb := pyOrNoneStr (find_between html "og:image\" content=\"" "\"")
      let logid := find_between html "dp-logid=" "&"
      let jsToken := find_between html "fn%28%22" "%22%29"
      let short := pyOrOptStr (extract_short_code finalUrl) (extract_short_code url)
      if (truthyOptStr short && truthyOptStr logid && truthyOptStr jsToken) = false then
        (.ok (.fail missingParamsMsg), [.pageGet])
      else
        let st := listStage default_thumb env
        (st.1, .pageGet :: st.2)

/-! ## RateLimiter (`app/limits.py`) -/

/-- The in-memory per-user rate limiter: `limit` actions per `window`
seconds; `events` is the dict mapping a user id to its timestamp list
(absent keys read as `[]`, matching `setdefault(user_id, [])`). -/
structure RateLimiter where
  limit : Nat
  window : ℚ
  events : Nat → List ℚ

/-- `RateLimiter.check(user_id)` at clock value `now`: prune entries with
`now - t >= window`, store the pruned list, deny with the wait time when
`limit` entries remain (indexing `[0]` of an empty pruned list raises, and
the pruned list is already stored when it does), else record `now` and
allow.  The state component is returned even on the exception path because
the dict mutation precedes the raise. -/
def RateLimiter.check (rl : RateLimiter) (user_id : Nat) (now : ℚ) :
    Except Unit (Bool × ℚ) × RateLimiter :=
  let arr := rl.events user_id
  let pruned := arr.filter (fun t => decide (now - t < rl.window))
  if rl.limit ≤ pruned.length then
    match pruned with
    | [] => (.error (), { rl with events := Function.update rl.events user_id pruned })
    | t0 :: _ =>
      (.ok (false, max 0 (rl.window - (now - t0))),
       { rl with events := Function.update rl.events user_id pruned })
  else
    (.ok (true, 0), { rl with events := Function.update rl.events user_id (pruned ++ [now]) })

/-- Run a sequence of `check` calls for one user at the given clock values,
collecting the outcomes and the final limiter state. -/
def runChecks (u : Nat) : RateLimiter → List ℚ → List (Except Unit (Bool × ℚ)) × RateLimiter
  | rl, [] => ([], rl)
  | rl, t :: ts =>
    let step := rl.check u t
    let rest := runChecks u step.2 ts
    (step.1 :: rest.1, rest.2)

/-! ## DeliveryGate (`app/bot.py` lines 202–212 and `bot.py` `cb_mirror`
lines 617–619) -/

/-- The two delivery decisions of the size gate. -/
inductive DeliveryPlan
  | rejectTooLarge
  | proceed
deriving DecidableEq, Repr

/-- `size_mb = size_bytes / (1024 * 1024) if size_bytes else 0` — exact in
`float` for all realistic sizes (integers below 2^53 divided by a power of
two), hence modelled in `ℚ`. -/
def size_mb_of (sizeBytes : Nat) : ℚ :=
  if sizeBytes ≠ 0 then (sizeBytes : ℚ) / (1024 * 1024) else 0

/-- The size gate of `handle_terabox`:
`if size_mb and size_mb > MAX_FILE_MB:` reject, else proceed. -/
def deliveryDecideApp (sizeBytes maxFileMB : Nat) : DeliveryPlan :=
  if size_mb_of sizeBytes ≠ 0 ∧ (maxFileMB : ℚ) < size_mb_of sizeBytes then .rejectTooLarge
  else .proceed

/-- `res.file_size or 0` (`None` and `0` both collapse to `0`). -/
def pyOrNat (o : Option Nat) (d : Nat) : Nat :=
  match o with
  | some n => if n ≠ 0 then n else d
  | none => d

/-- The size gate of `cb_mirror`:
`if (res.file_size or 0) > MIRROR_MAX_BYTES:` reject, else proceed. -/
def deliveryDecideMirror (fileSize : Option Nat) (maxBytes : Nat) : DeliveryPlan :=
  if maxBytes < pyOrNat fileSize 0 then .rejectTooLarge else .proceed

/-! ## TransferEngine (`stream_download` in `app/bot.py`) -/

/-- Mutable state of the download loop: the sink's write trace (one entry
per written chunk), the accumulated byte counter, the wall-clock time of
the last progress edit, and the progress edits issued (bytes so far, time). -/
structure StreamState where
  written : List (List Nat)
  downloaded : Nat
  lastUpdate : ℚ
  edits : List (Nat × ℚ)

/-- The `async for chunk in resp.aiter_bytes(...)` loop body: skip empty
chunks, write each chunk to the sink immediately, add its length to the
counter, and issue a throttled progress edit when at least 2 seconds have
passed since the previous one (edit failures are swallowed and do not
affect the state modelled here). -/
def streamLoop : List (List Nat × ℚ) → StreamState → StreamState
  | [], st => st
  | (chunk, t) :: rest, st =>
    if chunk = [] then streamLoop rest st
    else
      let downloaded := st.downloaded + chunk.length
      let st1 : StreamState :=
        { st with written := st.written ++ [chunk], downloaded := downloaded }
      let st2 : StreamState :=
        if 2 ≤ t - st1.lastUpdate then
          { st1 with lastUpdate := t, edits := st1.edits ++ [(downloaded, t)] }
        else st1
      streamLoop rest st2

/-- The streaming `GET` response: status, `Content-Length` header (raw
string, if present) and the body as arbitrarily-chunked bytes, each chunk
tagged with its wall-clock arrival time. -/
structure HttpStream where
  status : Nat
  contentLength : Option String
  chunks : List (List Nat × ℚ)

/-- `stream_download(direct_url, dest_path, ...)`: `raise_for_status()`
(any non-2xx status raises `httpx.HTTPStatusError`, handled by the
caller), `Content-Length` fallback when no expected size was passed (an
unparsable header is swallowed to 0), then the chunk loop from the initial
state. -/
def stream_download (resp : HttpStream) (total_bytes : Option Int) :
    Except Unit (Int × StreamState) :=
  if (200 ≤ resp.status ∧ resp.status ≤ 299) then
    let total : Int :=
      match total_bytes with
      | some n => n
      | none =>
        match resp.contentLength with
        | some s => (parseIntStr s).getD 0
        | none => 0
    .ok (total, streamLoop resp.chunks ⟨[], 0, 0, []⟩)
  else .error ()

/-! ## Concrete oracle environments used by witnesses and counterexamples -/

/-- A share URL whose path carries the short code `abc123`. -/
def urlS : String := "https://www.terabox.com/s/abc123"

/-- A share-page body containing both scraped tokens. -/
def htmlTok : String := "dp-logid=77&fn%28%22TOK%22%29"

/-- A fully well-formed listing item: `dlink`, name and integer size. -/
def goodItem : JVal :=
  .jobj [("dlink", .jstr "https://dl/x"), ("server_filename", .jstr "f.bin"),
         ("size", .jnum 5)]

/-- A listing whose only item carries a non-numeric `size` string — the
upstream shape that crashes `int(file0.get("size") or 0)`. -/
def envBadSize : NetEnv :=
  { pageResp := .ok (200, htmlTok, urlS),
    listResp := .ok (.jobj [("errno", .jnum 0),
      ("list", .jarr [.jobj [("dlink", .jstr "https://dl/x"), ("size", .jstr "huge")]])]),
    headResp := .ok none }

/-- A fully successful resolution environment whose redirect probe returns
`Location: https://cdn/x`. -/
def envGood : NetEnv :=
  { pageResp := .ok (200, htmlTok, urlS),
    listResp := .ok (.jobj [("errno", .jnum 0), ("list", .jarr [goodItem])]),
    headResp := .ok (some "https://cdn/x") }

/-- Same listing, but the redirect probe returns an *empty* `Location`
header value. -/
def envEmptyLoc : NetEnv :=
  { envGood with headResp := .ok (some "") }

/-- Same listing, but the redirect probe raises a network error. -/
def envHeadFail : NetEnv :=
  { envGood with headResp := .error "probe failed" }

/-- A share-page fetch answering 404. -/
def env404 : NetEnv :=
  { pageResp := .ok (404, "", ""), listResp := .error "unused", headResp := .error "unused" }

/-- A listing answering `errno = 2`. -/
def envErrno : NetEnv :=
  { envGood with listResp := .ok (.jobj [("errno", .jnum 2)]) }

/-- A listing answering `errno = 0` with an empty item list. -/
def envEmptyList : NetEnv :=
  { envGood with listResp := .ok (.jobj [("errno", .jnum 0), ("list", .jarr [])]) }

/-- The resolution result produced for `urlS` under `envGood`. -/
def resGood : ResolveResult :=
  { ok := true, error := none, file_name := some (.jstr "f.bin"), file_size := some 5,
    dlink := some (.jstr "https://dl/x"), direct_link := some (.jstr "https://cdn/x"),
    thumb := none, source := some "share/list" }

/-- The resolution result when the probe yields no usable `Location`: the
direct link falls back to the source `dlink`. -/
def resGoodDl : ResolveResult := { resGood with direct_link := some (.jstr "https://dl/x") }

/-! ## Theorems -/

/-- C1: the claim says `resolve_terabox` never raises, for every failure
kind "including for upstream responses whose fields have unexpected
types".  The code violates this (and its own module docstring, which
promises "a friendly error instead of a crash"): a listing item whose
`size` field is a non-numeric string makes `int(file0.get("size") or 0)`
raise an uncaught `ValueError` that escapes `resolve_terabox`.  This
theorem evaluates the resolver at that failing input. -/
theorem c1_bad_size_raises :
    (resolve_terabox urlS envBadSize).1 = .error PyExn.valueError := rfl

/-- C7: a non-200 share-page status makes `resolve_terabox` return
`ok:false` with the code's `UpstreamHttpError` message ("HTTP <status> on
initial URL"), and the page `GET` is the only network call issued —
neither the listing call nor the redirect probe happens. -/
theorem c7_non200_short_circuits (url : String) (env : NetEnv) (s : Nat)
    (html finalUrl : String)
    (hpage : env.pageResp = .ok (s, html, finalUrl)) (hs : s ≠ 200) :
    resolve_terabox url env = (.ok (.fail (httpStatusMsg s)), [.pageGet])
    ∧ (ResolveResult.fail (httpStatusMsg s)).ok = false
    ∧ (ResolveResult.fail (httpStatusMsg s)).error = some (httpStatusMsg s) := by
  refine ⟨?_, rfl, rfl⟩
  unfold resolve_terabox
  rw [hpage]
  simp [hs]

/-- C7 witness: a mocked 404 share page. -/
theorem c7_witness :
    resolve_terabox "u" env404 = (.ok (.fail (httpStatusMsg 404)), [.pageGet])
    ∧ (ResolveResult.fail (httpStatusMsg 404)).ok = false
    ∧ (ResolveResult.fail (httpStatusMsg 404)).error = some (httpStatusMsg 404) :=
  c7_non200_short_circuits "u" env404 404 "" "" rfl (by decide)

/-- An `if c then rejectTooLarge else proceed` equals `rejectTooLarge`
exactly when the condition holds. -/
theorem ite_reject_iff (c : Prop) [Decidable c] :
    (if c then DeliveryPlan.rejectTooLarge else DeliveryPlan.proceed) = .rejectTooLarge ↔ c := by
  split <;> simp_all

/-- C3: both size gates return `RejectTooLarge` exactly when the size is
known (positive) and exceeds the ceiling, and `Proceed` otherwise —
including unknown size 0 regardless of the ceiling.  For `handle_terabox`
the ceiling is `MAX_FILE_MB` megabytes, i.e. `maxFileMB * 1048576` bytes;
for `cb_mirror` it is `maxBytes` directly, instantiated with the spec's
3 GB / 2 GB example. -/
theorem c3_delivery_gate :
    (∀ sizeBytes maxFileMB : Nat,
       deliveryDecideApp sizeBytes maxFileMB = .rejectTooLarge
         ↔ 0 < sizeBytes ∧ maxFileMB * 1048576 < sizeBytes)
    ∧ (∀ (fileSize : Option Nat) (maxBytes : Nat),
       deliveryDecideMirror fileSize maxBytes = .rejectTooLarge
         ↔ 0 < pyOrNat fileSize 0 ∧ maxBytes < pyOrNat fileSize 0)
    ∧ deliveryDecideMirror (some 3000000000) 2000000000 = .rejectTooLarge
    ∧ (∀ maxBytes : Nat, deliveryDecideMirror (some 0) maxBytes = .proceed)
    ∧ (∀ maxFileMB : Nat, deliveryDecideApp 0 maxFileMB = .proceed) := by
  have happ : ∀ sizeBytes maxFileMB : Nat,
      deliveryDecideApp sizeBytes maxFileMB = .rejectTooLarge
        ↔ 0 < sizeBytes ∧ maxFileMB * 1048576 < sizeBytes := by
    intro s m
    rw [deliveryDecideApp, ite_reject_iff]
    by_cases hs : s = 0
    · subst hs; simp [size_mb_of]
    · have hs' : 0 < s := Nat.pos_of_ne_zero hs
      have hq : (0 : ℚ) < (s : ℚ) := by exact_mod_cast hs'
      rw [size_mb_of, if_pos hs]
      constructor
      · rintro ⟨-, hlt⟩
        refine ⟨hs', ?_⟩
        rw [lt_div_iff₀ (by norm_num : (0:ℚ) < 1024 * 1024)] at hlt
        exact_mod_cast hlt
      · rintro ⟨-, hlt⟩
        refine ⟨by positivity, ?_⟩
        rw [lt_div_iff₀ (by norm_num : (0:ℚ) < 1024 * 1024)]
        exact_mod_cast hlt
  have hmir : ∀ (fileSize : Option Nat) (maxBytes : Nat),
      deliveryDecideMirror fileSize maxBytes = .rejectTooLarge
        ↔ 0 < pyOrNat fileSize 0 ∧ maxBytes < pyOrNat fileSize 0 := by
    intro f m
    rw [deliveryDecideMirror, ite_reject_iff]
    constructor
    · intro h; exact ⟨Nat.lt_of_le_of_lt (Nat.zero_le m) h, h⟩
    · rintro ⟨-, h⟩; exact h
  refine ⟨happ, hmir, ?_, ?_, ?_⟩
  · decide
  · intro m; rw [deliveryDecideMirror]; simp [pyOrNat]
  · intro m; rw [deliveryDecideApp]; simp [size_mb_of]

/-- C10 counterexample: with a zero-width window an allowed call stores
`now` itself, which does not lie strictly within the window — the claim's
"every retained timestamp satisfies `now - t < window`" fails. -/
theorem c10_counterexample :
    (RateLimiter.check ⟨1, 0, fun _ => []⟩ 0 0).1 = .ok (true, 0)
    ∧ (RateLimiter.check ⟨1, 0, fun _ => []⟩ 0 0).2.events 0 = [0]
    ∧ ¬ ((0 : ℚ) - 0 < (RateLimiter.mk 1 0 (fun _ => [])).window) := by
  refine ⟨?_, ?_, by norm_num⟩ <;> simp [RateLimiter.check]

/-- C10 (amended: requires a positive window, and the claimed at-most-
`limit` bound as a preserved invariant): after a `check` call the user's
stored list has at most `limit` entries, every retained timestamp lies
strictly within the window as of that call, and a denied call stores
exactly the pruning of the previous list. -/
theorem c10_check_invariant (rl : RateLimiter) (u : Nat) (now : ℚ)
    (hlen : (rl.events u).length ≤ rl.limit) (hw : 0 < rl.window) :
    ((rl.check u now).2.events u).length ≤ rl.limit
    ∧ (∀ t ∈ (rl.check u now).2.events u, now - t < rl.window)
    ∧ (∀ w : ℚ, (rl.check u now).1 = .ok (false, w) →
        (rl.check u now).2.events u
          = (rl.events u).filter (fun t => decide (now - t < rl.window))) := by
  simp only [RateLimiter.check]
  have hple : ((rl.events u).filter (fun t => decide (now - t < rl.window))).length
      ≤ (rl.events u).length := List.length_filter_le _ _
  have hmem : ∀ t ∈ (rl.events u).filter (fun t => decide (now - t < rl.window)),
      now - t < rl.window := by
    intro t ht
    exact of_decide_eq_true (List.mem_filter.mp ht).2
  split
  · next hge =>
    split
    · next heq =>
      refine ⟨?_, ?_, ?_⟩
      · dsimp only
        rw [Function.update_same]
        exact le_trans hple hlen
      · intro t ht
        dsimp only at ht
        rw [Function.update_same] at ht
        exact hmem t ht
      · intro w hcontra
        dsimp only at hcontra
        exact Except.noConfusion hcontra
    · next t0 rest heq =>
      refine ⟨?_, ?_, ?_⟩
      · dsimp only
        rw [Function.update_same]
        exact le_trans hple hlen
      · intro t ht
        dsimp only at ht
        rw [Function.update_same] at ht
        exact hmem t ht
      · intro w _
        dsimp only
        rw [Function.update_same]
  · next hlt =>
    push_neg at hlt
    refine ⟨?_, ?_, ?_⟩
    · dsimp only
      rw [Function.update_same, List.length_append, List.length_singleton]
      exact Nat.succ_le_of_lt hlt
    · intro t ht
      dsimp only at ht
      rw [Function.update_same, List.mem_append] at ht
      rcases ht with ht | ht
      · exact hmem t ht
      · rw [List.mem_singleton] at ht
        subst ht
        simpa using hw
    · intro w hcontra
      dsimp only at hcontra
      simp at hcontra

/-- C10 witness: a live limiter state with a positive window. -/
theorem c10_witness :
    ((RateLimiter.check ⟨2, 10, fun _ => [0, 1]⟩ 7 5).2.events 7).length ≤ 2
    ∧ (∀ t ∈ (RateLimiter.check ⟨2, 10, fun _ => [0, 1]⟩ 7 5).2.events 7, (5 : ℚ) - t < 10)
    ∧ (∀ w : ℚ, (RateLimiter.check ⟨2, 10, fun _ => [0, 1]⟩ 7 5).1 = .ok (false, w) →
        (RateLimiter.check ⟨2, 10, fun _ => [0, 1]⟩ 7 5).2.events 7
          = ([0, 1] : List ℚ).filter (fun t => decide ((5 : ℚ) - t < 10))) :=
  c10_check_invariant ⟨2, 10, fun _ => [0, 1]⟩ 7 5 (by decide) (by norm_num)

/-- Accumulation invariant of the download loop: the final byte counter
adds the total length of all chunks, and the sink's write trace extends by
exactly the non-empty chunks, in order (the progress-edit throttle never
touches either field). -/
theorem streamLoop_spec (chunks : List (List Nat × ℚ)) (st : StreamState) :
    (streamLoop chunks st).downloaded = st.downloaded + (chunks.map Prod.fst).flatten.length
    ∧ (streamLoop chunks st).written
        = st.written ++ (chunks.map Prod.fst).filter (fun c => !c.isEmpty) := by
  induction chunks generalizing st with
  | nil => simp [streamLoop]
  | cons p rest ih =>
    obtain ⟨c, t⟩ := p
    by_cases hc : c = []
    · subst hc
      simpa [streamLoop] using ih st
    · have hne : (!c.isEmpty) = true := by
        cases c
        · exact absurd rfl hc
        · rfl
      simp only [streamLoop, if_neg hc]
      split
      · rcases ih { st with
          written := st.written ++ [c], downloaded := st.downloaded + c.length,
          lastUpdate := t, edits := st.edits ++ [(st.downloaded + c.length, t)] } with ⟨hd, hw⟩
        constructor
        · rw [hd]
          simp [List.flatten_cons, Nat.add_assoc, Nat.add_comm c.length]
        · rw [hw]
          simp [hne, List.append_assoc]
      · rcases ih { st with
          written := st.written ++ [c], downloaded := st.downloaded + c.length } with ⟨hd, hw⟩
        constructor
        · rw [hd]
          simp [List.flatten_cons, Nat.add_assoc, Nat.add_comm c.length]
        · rw [hw]
          simp [hne, List.append_assoc]

/-- Flattening the non-empty chunks loses nothing: empty chunks contribute
no bytes. -/
theorem join_filter_nonempty (l : List (List Nat)) :
    (l.filter (fun c => !c.isEmpty)).flatten = l.flatten := by
  induction l with
  | nil => rfl
  | cons c rest ih =>
    by_cases hc : c = []
    · subst hc
      simpa using ih
    · have hne : (!c.isEmpty) = true := by
        cases c
        · exact absurd rfl hc
        · rfl
      simp [hne, ih]

/-- C6: on a 2xx response whose body yields exactly `N` bytes in arbitrary
chunk boundaries, `stream_download` writes each non-empty chunk to the
sink immediately (the write trace is exactly the non-empty chunks, never a
whole-file buffer), the bytes written total exactly `N`, and the final
accumulated counter equals `N`. -/
theorem c6_transfer_bytes (resp : HttpStream) (total_bytes : Option Int) (N : Nat)
    (hst : 200 ≤ resp.status ∧ resp.status ≤ 299)
    (hN : (resp.chunks.map Prod.fst).flatten.length = N) :
    ∃ (tot : Int) (st : StreamState),
      stream_download resp total_bytes = .ok (tot, st)
      ∧ st.downloaded = N
      ∧ st.written = (resp.chunks.map Prod.fst).filter (fun c => !c.isEmpty)
      ∧ st.written.flatten = (resp.chunks.map Prod.fst).flatten
      ∧ st.written.flatten.length = N := by
  rcases streamLoop_spec resp.chunks ⟨[], 0, 0, []⟩ with ⟨hd, hw⟩
  refine ⟨(match total_bytes with
           | some n => n
           | none =>
             match resp.contentLength with
             | some str => (parseIntStr str).getD 0
             | none => 0),
          streamLoop resp.chunks ⟨[], 0, 0, []⟩, ?_, ?_, ?_, ?_, ?_⟩
  · simp only [stream_download]
    rw [if_pos hst]
  · rw [hd, hN]
    simp
  · rw [hw]
    simp
  · rw [hw]
    simpa using join_filter_nonempty (resp.chunks.map Prod.fst)
  · rw [hw]
    simpa [join_filter_nonempty (resp.chunks.map Prod.fst)] using hN

/-- C6 witness: three chunks of sizes 2, 0 and 1 yield 3 written bytes and
a final counter of 3. -/
theorem c6_witness :
    ∃ (tot : Int) (st : StreamState),
      stream_download ⟨200, none, [([1, 2], 0), ([], 1), ([3], 5)]⟩ none = .ok (tot, st)
      ∧ st.downloaded = 3
      ∧ st.written = ((([([1, 2], 0), ([], 1), ([3], 5)] : List (List Nat × ℚ)).map
            Prod.fst).filter (fun c => !c.isEmpty))
      ∧ st.written.flatten = (([([1, 2], 0), ([], 1), ([3], 5)] : List (List Nat × ℚ)).map
            Prod.fst).flatten
      ∧ st.written.flatten.length = 3 :=
  c6_transfer_bytes ⟨200, none, [([1, 2], 0), ([], 1), ([3], 5)]⟩ none 3
    (by norm_num) (by decide)

/-- After a 200 share page whose scraped tokens are all present,
`resolve_terabox` is the listing stage with the page `GET` prepended to
its call trace. -/
theorem resolve_eq_listStage (url : String) (env : NetEnv) (html finalUrl : String)
    (hpage : env.pageResp = .ok (200, html, finalUrl))
    (htok : (truthyOptStr (pyOrOptStr (extract_short_code finalUrl)
               (extract_short_code (pyReplace url "teraboxlink.com" "terabox.com")))
             && truthyOptStr (find_between html "dp-logid=" "&")
             && truthyOptStr (find_between html "fn%28%22" "%22%29")) = true) :
    resolve_terabox url env =
      ((listStage (pyOrNoneStr (find_between html "og:image\" content=\"" "\"")) env).1,
       .pageGet :: (listStage (pyOrNoneStr (find_between html "og:image\" content=\"" "\"")) env).2) := by
  simp only [resolve_terabox]
  rw [hpage]
  simp [htok]

/-- C8: with the listing reached, a non-zero upstream `errno` yields
`ok:false` with the code's `UpstreamApiError` message and no direct link;
a zero `errno` with a falsy (absent or empty) item list yields `ok:false`
with the `NoFilesFound` message and no direct link. -/
theorem c8_listing_failures (url : String) (env : NetEnv) (html finalUrl : String) (data : JVal)
    (hpage : env.pageResp = .ok (200, html, finalUrl))
    (htok : (truthyOptStr (pyOrOptStr (extract_short_code finalUrl)
               (extract_short_code (pyReplace url "teraboxlink.com" "terabox.com")))
             && truthyOptStr (find_between html "dp-logid=" "&")
             && truthyOptStr (find_between html "fn%28%22" "%22%29")) = true)
    (hlist : env.listResp = .ok data) :
    (∀ e : Int, pyGet data "errno" = .ok (.jnum e) → e ≠ 0 →
       resolve_terabox url env = (.ok (.fail (apiErrorMsg (.jnum e))), [.pageGet, .listGet])
       ∧ (ResolveResult.fail (apiErrorMsg (.jnum e))).ok = false
       ∧ (ResolveResult.fail (apiErrorMsg (.jnum e))).direct_link = none)
    ∧ (∀ lraw : JVal, pyGet data "errno" = .ok (.jnum 0) → pyGet data "list" = .ok lraw →
       (pyOr lraw (.jarr [])).truthy = false →
       resolve_terabox url env = (.ok (.fail noFilesMsg), [.pageGet, .listGet])
       ∧ (ResolveResult.fail noFilesMsg).ok = false
       ∧ (ResolveResult.fail noFilesMsg).direct_link = none) := by
  have hres := resolve_eq_listStage url env html finalUrl hpage htok
  constructor
  · intro e herr hne
    have htr : (JVal.jnum e).truthy = true := by simp [JVal.truthy, hne]
    have hls : listStage (pyOrNoneStr (find_between html "og:image\" content=\"" "\"")) env
        = (.ok (.fail (apiErrorMsg (.jnum e))), [.listGet]) := by
      simp [listStage, hlist, herr, htr]
    rw [hres, hls]
    exact ⟨rfl, rfl, rfl⟩
  · intro lraw herr0 hlraw hfal
    have h0 : (JVal.jnum 0).truthy = false := rfl
    have hls : listStage (pyOrNoneStr (find_between html "og:image\" content=\"" "\"")) env
        = (.ok (.fail noFilesMsg), [.listGet]) := by
      simp [listStage, hlist, herr0, hlraw, hfal, h0]
    rw [hres, hls]
    exact ⟨rfl, rfl, rfl⟩

/-- C8 witness: a mocked listing with `errno = 2`, and another with
`errno = 0` and an empty list. -/
theorem c8_witness :
    (resolve_terabox urlS envErrno = (.ok (.fail (apiErrorMsg (.jnum 2))), [.pageGet, .listGet])
     ∧ (ResolveResult.fail (apiErrorMsg (.jnum 2))).ok = false
     ∧ (ResolveResult.fail (apiErrorMsg (.jnum 2))).direct_link = none)
    ∧ (resolve_terabox urlS envEmptyList = (.ok (.fail noFilesMsg), [.pageGet, .listGet])
     ∧ (ResolveResult.fail noFilesMsg).ok = false
     ∧ (ResolveResult.fail noFilesMsg).direct_link = none) :=
  ⟨(c8_listing_failures urlS envErrno htmlTok urlS (.jobj [("errno", .jnum 2)])
      rfl (by decide) rfl).1 2 rfl (by decide),
   (c8_listing_failures urlS envEmptyList htmlTok urlS
      (.jobj [("errno", .jnum 0), ("list", .jarr [])]) rfl (by decide) rfl).2
      (.jarr []) rfl rfl rfl⟩

/-- A fully well-typed successful listing reduces `listStage` to the
success record, whose direct link is `headDirect` of the probe. -/
theorem listStage_success (dt : Option String) (env : NetEnv)
    (data file0 dlink fnameRaw sizeRaw thumbsRaw : JVal) (rest : List JVal)
    (fsize : Int) (thumb : Option JVal)
    (hlist : env.listResp = .ok data)
    (herrno : pyGet data "errno" = .ok (.jnum 0))
    (hlraw : pyGet data "list" = .ok (.jarr (file0 :: rest)))
    (hdlink : pyGet file0 "dlink" = .ok dlink)
    (hdt : dlink.truthy = true)
    (hfn : pyGet file0 "server_filename" = .ok fnameRaw)
    (hsz : pyGet file0 "size" = .ok sizeRaw)
    (hint : pyToInt (pyOr sizeRaw (.jnum 0)) = .ok fsize)
    (hth : pyGet file0 "thumbs" = .ok thumbsRaw)
    (htg : thumbGet (pyOr thumbsRaw (.jobj [])) "url3" dt = .ok thumb) :
    listStage dt env =
      (.ok { ok := true, error := none, file_name := some (pyOr fnameRaw (.jstr "file")),
             file_size := some fsize, dlink := some dlink,
             direct_link := some (headDirect env dlink), thumb := thumb,
             source := some "share/list" },
       [.listGet, .headProbe]) := by
  have h0 : (JVal.jnum 0).truthy = false := rfl
  have hpyor : pyOr (JVal.jarr (file0 :: rest)) (JVal.jarr []) = JVal.jarr (file0 :: rest) := by
    simp [pyOr, JVal.truthy]
  have hitems : (JVal.jarr (file0 :: rest)).truthy = true := by
    simp [JVal.truthy]
  simp [listStage, hlist, herrno, hlraw, h0, hpyor, hitems, pyIndex0,
        itemStage, hdlink, hfn, hsz, hint, hth, htg, hdt]

/-- C4 (amended: the `Location` value must be non-empty for it to become
the direct link; empty and absent `Location` headers and failed probes all
fall back to `dlink`): for a successful listing, a probe answering
`Location: X` with non-empty `X` gives `ok:true` with `directLink = X`,
and a probe that raises gives `ok:true` with `directLink = dlink` — never
a user-visible error. -/
theorem c4_redirect_probe (url : String) (env : NetEnv) (html finalUrl : String)
    (data file0 dlink fnameRaw sizeRaw thumbsRaw : JVal) (rest : List JVal)
    (fsize : Int) (thumb : Option JVal)
    (hpage : env.pageResp = .ok (200, html, finalUrl))
    (htok : (truthyOptStr (pyOrOptStr (extract_short_code finalUrl)
               (extract_short_code (pyReplace url "teraboxlink.com" "terabox.com")))
             && truthyOptStr (find_between html "dp-logid=" "&")
             && truthyOptStr (find_between html "fn%28%22" "%22%29")) = true)
    (hlist : env.listResp = .ok data)
    (herrno : pyGet data "errno" = .ok (.jnum 0))
    (hlraw : pyGet data "list" = .ok (.jarr (file0 :: rest)))
    (hdlink : pyGet file0 "dlink" = .ok dlink)
    (hdt : dlink.truthy = true)
    (hfn : pyGet file0 "server_filename" = .ok fnameRaw)
    (hsz : pyGet file0 "size" = .ok sizeRaw)
    (hint : pyToInt (pyOr sizeRaw (.jnum 0)) = .ok fsize)
    (hth : pyGet file0 "thumbs" = .ok thumbsRaw)
    (htg : thumbGet (pyOr thumbsRaw (.jobj []))
             "url3" (pyOrNoneStr (find_between html "og:image\" content=\"" "\"")) = .ok thumb) :
    (∀ X : String, env.headResp = .ok (some X) → X ≠ "" →
       resolve_terabox url env =
         (.ok { ok := true, error := none, file_name := some (pyOr fnameRaw (.jstr "file")),
                file_size := some fsize, dlink := some dlink,
                direct_link := some (.jstr X), thumb := thumb,
                source := some "share/list" },
          [.pageGet, .listGet, .headProbe]))
    ∧ (∀ e : String, env.headResp = .error e →
       resolve_terabox url env =
         (.ok { ok := true, error := none, file_name := some (pyOr fnameRaw (.jstr "file")),
                file_size := some fsize, dlink := some dlink,
                direct_link := some dlink, thumb := thumb,
                source := some "share/list" },
          [.pageGet, .listGet, .headProbe])) := by
  have hres := resolve_eq_listStage url env html finalUrl hpage htok
  have hls := listStage_success (pyOrNoneStr (find_between html "og:image\" content=\"" "\""))
    env data file0 dlink fnameRaw sizeRaw thumbsRaw rest fsize thumb
    hlist herrno hlraw hdlink hdt hfn hsz hint hth htg
  constructor
  · intro X hX hne
    have hhd : headDirect env dlink = .jstr X := by
      unfold headDirect
      rw [hX]
      exact if_neg hne
    rw [hres, hls, hhd]
  · intro e hE
    have hhd : headDirect env dlink = dlink := by
      unfold headDirect
      rw [hE]
    rw [hres, hls, hhd]

/-- C4 counterexample: the probe's response carries a `Location` header
whose value is the empty string, yet the resulting `directLink` is the
source `dlink`, not that header value — the claim's "if the probe's
response carries a Location header with value X, directLink == X" is
false at X = "". -/
theorem c4_empty_location_counterexample :
    envEmptyLoc.headResp = .ok (some "")
    ∧ (resolve_terabox urlS envEmptyLoc).1 = .ok resGoodDl
    ∧ resGoodDl.direct_link = some (.jstr "https://dl/x")
    ∧ ("https://dl/x" : String) ≠ "" :=
  ⟨rfl, rfl, rfl, by decide⟩

/-- C4 witness: a probe answering `Location: https://cdn/x` yields that
direct link; a raising probe still resolves `ok:true` with the `dlink`. -/
theorem c4_witness :
    resolve_terabox urlS envGood = (.ok resGood, [.pageGet, .listGet, .headProbe])
    ∧ resolve_terabox urlS envHeadFail = (.ok resGoodDl, [.pageGet, .listGet, .headProbe]) :=
  ⟨(c4_redirect_probe urlS envGood htmlTok urlS
      (.jobj [("errno", .jnum 0), ("list", .jarr [goodItem])]) goodItem
      (.jstr "https://dl/x") (.jstr "f.bin") (.jnum 5) .null [] 5 none
      rfl (by decide) rfl rfl rfl rfl rfl rfl rfl rfl rfl rfl).1
      "https://cdn/x" rfl (by decide),
   (c4_redirect_probe urlS envHeadFail htmlTok urlS
      (.jobj [("errno", .jnum 0), ("list", .jarr [goodItem])]) goodItem
      (.jstr "https://dl/x") (.jstr "f.bin") (.jnum 5) .null [] 5 none
      rfl (by decide) rfl rfl rfl rfl rfl rfl rfl rfl rfl rfl).2
      "probe failed" rfl⟩

/-- A non-empty string is truthy. -/
theorem truthy_jstr_of_ne (l : String) (h : l ≠ "") : JVal.truthy (.jstr l) = true := by
  obtain ⟨d⟩ := l
  cases d with
  | nil => exact absurd rfl h
  | cons c cs => rfl

/-- The redirect-probe fallback preserves truthiness: whatever the probe
answered, the direct link is either the truthy `dlink` or a non-empty
`Location` string. -/
theorem headDirect_truthy (env : NetEnv) (d : JVal) (hd : d.truthy = true) :
    (headDirect env d).truthy = true := by
  unfold headDirect
  split
  · exact hd
  · split
    · exact hd
    · next hne => exact truthy_jstr_of_ne _ hne
  · exact hd

/-- If the item stage succeeds with `ok = true`, both the stored `dlink`
and the stored `direct_link` are present and truthy. -/
theorem itemStage_ok_links (dt : Option String) (env : NetEnv) (f : JVal) (r : ResolveResult)
    (h : (itemStage dt env f).1 = .ok r) (hr : r.ok = true) :
    (∃ d, r.dlink = some d ∧ d.truthy = true)
    ∧ (∃ d, r.direct_link = some d ∧ d.truthy = true) := by
  simp only [itemStage] at h
  split at h
  · simp at h
  · split at h
    · simp at h
    · split at h
      · simp at h
      · split at h
        · simp at h
        · split at h
          · simp at h
          · split at h
            · simp at h
            · split at h
              · dsimp only at h
                rw [Except.ok.injEq] at h
                subst h
                simp [ResolveResult.fail] at hr
              · next hcond =>
                dsimp only at h
                rw [Except.ok.injEq] at h
                subst h
                simp only [Bool.not_eq_false] at hcond
                exact ⟨⟨_, rfl, hcond⟩, ⟨_, rfl, headDirect_truthy env _ hcond⟩⟩

/-- If the listing stage succeeds with `ok = true`, both links are present
and truthy. -/
theorem listStage_ok_links (dt : Option String) (env : NetEnv) (r : ResolveResult)
    (h : (listStage dt env).1 = .ok r) (hr : r.ok = true) :
    (∃ d, r.dlink = some d ∧ d.truthy = true)
    ∧ (∃ d, r.direct_link = some d ∧ d.truthy = true) := by
  simp only [listStage] at h
  split at h
  · dsimp only at h
    rw [Except.ok.injEq] at h
    subst h
    simp [ResolveResult.fail] at hr
  · split at h
    · simp at h
    · split at h
      · dsimp only at h
        rw [Except.ok.injEq] at h
        subst h
        simp [ResolveResult.fail] at hr
      · split at h
        · simp at h
        · split at h
          · dsimp only at h
            rw [Except.ok.injEq] at h
            subst h
            simp [ResolveResult.fail] at hr
          · split at h
            · simp at h
            · exact itemStage_ok_links dt env _ r h hr

/-- C2: whenever `resolve_terabox` returns (rather than raises) a result
with `ok = true`, the result's `dlink` (the source link) and `direct_link`
are both present and truthy — a resolution that cannot produce a usable
link never reports `ok = true`. -/
theorem c2_ok_has_link (url : String) (env : NetEnv) (r : ResolveResult)
    (h : (resolve_terabox url env).1 = .ok r) (hr : r.ok = true) :
    (∃ d, r.dlink = some d ∧ d.truthy = true)
    ∧ (∃ d, r.direct_link = some d ∧ d.truthy = true) := by
  simp only [resolve_terabox] at h
  split at h
  · dsimp only at h
    rw [Except.ok.injEq] at h
    subst h
    simp [ResolveResult.fail] at hr
  · split at h
    · dsimp only at h
      rw [Except.ok.injEq] at h
      subst h
      simp [ResolveResult.fail] at hr
    · split at h
      · dsimp only at h
        rw [Except.ok.injEq] at h
        subst h
        simp [ResolveResult.fail] at hr
      · dsimp only at h
        exact listStage_ok_links _ env r h hr

/-- C2 witness: the successful resolution under `envGood` carries both a
truthy `dlink` and a truthy `direct_link`. -/
theorem c2_witness :
    (∃ d, resGood.dlink = some d ∧ d.truthy = true)
    ∧ (∃ d, resGood.direct_link = some d ∧ d.truthy = true) :=
  c2_ok_has_link urlS envGood resGood rfl rfl

/-- Boolean prefix test agrees with the prefix relation. -/
theorem isPre_iff (l₁ l₂ : List Char) : l₁.isPrefixOf l₂ = true ↔ l₁ <+: l₂ :=
  List.isPrefixOf_iff_prefix

/-- A prefix is an infix. -/
theorem infixOfPre {l₁ l₂ : List Char} (h : l₁ <+: l₂) : l₁ <:+: l₂ :=
  List.IsPrefix.isInfix h

/-- A suffix is an infix. -/
theorem infixOfSuf {l₁ l₂ : List Char} (h : l₁ <:+ l₂) : l₁ <:+: l₂ :=
  List.IsSuffix.isInfix h

/-- The infix relation is transitive. -/
theorem infixTrans {l₁ l₂ l₃ : List Char} (h : l₁ <:+: l₂) (h' : l₂ <:+: l₃) : l₁ <:+: l₃ :=
  List.IsInfix.trans h h'

/-- Mapping preserves the infix relation. -/
theorem infixMap (f : Char → Char) {l₁ l₂ : List Char} (h : l₁ <:+: l₂) :
    l₁.map f <:+: l₂.map f :=
  List.IsInfix.map f h

/-- `occursB` decides the contiguous-substring relation. -/
theorem occursB_iff (pat hay : List Char) : occursB pat hay = true ↔ pat <:+: hay := by
  unfold occursB
  rw [List.any_eq_true]
  constructor
  · rintro ⟨t, ht, hp⟩
    rw [List.mem_tails] at ht
    rw [isPre_iff] at hp
    exact List.infix_iff_prefix_suffix.mpr ⟨t, hp, ht⟩
  · intro h
    obtain ⟨t, hp, ht⟩ := List.infix_iff_prefix_suffix.mp h
    exact ⟨t, (List.mem_tails _ _).mpr ht, (isPre_iff _ _).mpr hp⟩

/-- Scheme stripping only discards a prefix of the URL. -/
theorem splitSchemeRest_suffix (l : List Char) : splitSchemeRest l <:+ l := by
  unfold splitSchemeRest
  split
  · exact List.suffix_refl l
  · split
    · exact List.drop_suffix _ _
    · exact List.suffix_refl l

/-- The extracted netloc is a contiguous substring of the sanitized URL. -/
theorem netloc_within_url (l : List Char) : urlNetloc l <:+: urlSanitize l := by
  simp only [urlNetloc]
  split
  · exact infixTrans (infixOfPre ( List.takeWhile_prefix _))
      (infixTrans (infixOfSuf ( List.drop_suffix _ _))
        (infixOfSuf (splitSchemeRest_suffix (urlSanitize l))))
  · exact infixOfPre ( List.nil_prefix)

/-- Filtering preserves the infix relation. -/
theorem infixFilter (f : Char → Bool) {l₁ l₂ : List Char} (h : l₁ <:+: l₂) :
    l₁.filter f <:+: l₂.filter f := by
  obtain ⟨s, t, rfl⟩ := h
  exact ⟨s.filter f, t.filter f, by simp [List.filter_append]⟩

/-- An occurrence whose first character is never stripped survives the
leading strip: `dropWhile` removes a contiguous leading run, which cannot
overlap an occurrence that starts with an unstripped character. -/
theorem infix_dropWhile_of_head (f : Char → Bool) (p l : List Char)
    (h : p <:+: l) (hhead : p.head?.all (fun c => !f c) = true) :
    p <:+: l.dropWhile f := by
  induction l with
  | nil =>
    have hp : p = [] := List.sublist_nil.mp h.sublist
    subst hp
    exact infixOfPre ( List.nil_prefix)
  | cons c rest ih =>
    rw [List.dropWhile_cons]
    split
    · next hf =>
      rcases List.infix_cons_iff.mp h with hpre | hinf
      · cases p with
        | nil => exact infixOfPre ( List.nil_prefix)
        | cons pc ptl =>
          exfalso
          obtain ⟨t, ht⟩ := hpre
          have hpc : pc = c := by
            have := congrArg List.head? ht
            simpa using this
          subst hpc
          simp [hf] at hhead
      · exact ih hinf
    · exact h

/-- Every allow-listed pattern of both matchers is already lowercase. -/
theorem patterns_lower_fixed :
    ∀ p ∈ TERABOX_PATTERNS ++ ALLOWED_DOMAINS, p.data.map Char.toLower = p.data := by
  decide

/-- No allow-listed pattern contains a tab, CR or LF. -/
theorem patterns_keep_removed_bytes :
    ∀ p ∈ TERABOX_PATTERNS ++ ALLOWED_DOMAINS,
      p.data.filter (fun c => !unsafeUrlByte c) = p.data := by
  decide

/-- No allow-listed pattern starts with a C0-control or space character. -/
theorem patterns_head_not_stripped :
    ∀ p ∈ TERABOX_PATTERNS ++ ALLOWED_DOMAINS,
      p.data.head?.all (fun c => !c0ControlOrSpace c) = true := by
  decide

/-- An occurrence of an allow-listed pattern in the raw string survives
`urlsplit`'s sanitization: the pattern contains none of the removed
characters and does not start with a stripped one. -/
theorem pattern_occurs_sanitized (p : String)
    (hp : p ∈ TERABOX_PATTERNS ++ ALLOWED_DOMAINS)
    (l : List Char) (h : p.data <:+: l) : p.data <:+: urlSanitize l := by
  have h1 : p.data <:+: l.dropWhile c0ControlOrSpace :=
    infix_dropWhile_of_head c0ControlOrSpace p.data l h (patterns_head_not_stripped p hp)
  have h2 : p.data.filter (fun c => !unsafeUrlByte c)
      <:+: (l.dropWhile c0ControlOrSpace).filter (fun c => !unsafeUrlByte c) :=
    infixFilter _ h1
  rw [patterns_keep_removed_bytes p hp] at h2
  exact h2

/-- C5 (amended: `is_terabox_url` regex-searches the whole raw URL string,
case-sensitively; `is_allowed_domain` first applies `urlsplit`'s
sanitization — strip leading control/space characters, delete every tab,
CR and LF — and then substring-matches the lowercased netloc, which
includes userinfo and port; neither inspects only the host.  What survives
of the claim's negative half: for every string in which no allow-listed
domain occurs case-insensitively even after that sanitization, both
matchers return `false`; both are total, so malformed URLs never raise —
`is_allowed_domain` maps `urlparse`'s bracket `ValueError` to `false`). -/
theorem c5_no_domain_false (s : String)
    (h : ∀ p ∈ TERABOX_PATTERNS ++ ALLOWED_DOMAINS,
           occursB p.data ((urlSanitize s.data).map Char.toLower) = false) :
    is_terabox_url s = false ∧ is_allowed_domain s = false := by
  constructor
  · cases hb : is_terabox_url s
    · rfl
    · exfalso
      unfold is_terabox_url at hb
      rw [List.any_eq_true] at hb
      obtain ⟨p, hp, hocc⟩ := hb
      have hinf : p.data <:+: s.data := (occursB_iff _ _).mp hocc
      have hsan : p.data <:+: urlSanitize s.data :=
        pattern_occurs_sanitized p (List.mem_append_left _ hp) s.data hinf
      have hlow : p.data.map Char.toLower <:+: (urlSanitize s.data).map Char.toLower :=
        infixMap _ hsan
      rw [patterns_lower_fixed p (List.mem_append_left _ hp)] at hlow
      have hocc' : occursB p.data ((urlSanitize s.data).map Char.toLower) = true :=
        (occursB_iff _ _).mpr hlow
      rw [h p (List.mem_append_left _ hp)] at hocc'
      exact Bool.noConfusion hocc'
  · cases hb : is_allowed_domain s
    · rfl
    · exfalso
      simp only [is_allowed_domain] at hb
      split at hb
      · exact Bool.noConfusion hb
      · rw [List.any_eq_true] at hb
        obtain ⟨d, hd, hocc⟩ := hb
        have hinf : d.data <:+: (urlNetloc s.data).map Char.toLower := (occursB_iff _ _).mp hocc
        have hnl : (urlNetloc s.data).map Char.toLower
            <:+: (urlSanitize s.data).map Char.toLower :=
          infixMap _ (netloc_within_url s.data)
        have hlow : d.data <:+: (urlSanitize s.data).map Char.toLower := infixTrans hinf hnl
        have hocc' : occursB d.data ((urlSanitize s.data).map Char.toLower) = true :=
          (occursB_iff _ _).mpr hlow
        rw [h d (List.mem_append_right _ hd)] at hocc'
        exact Bool.noConfusion hocc'

/-- C5 counterexample, refuting the original claim at two concrete inputs:
(a) `is_terabox_url` answers `true` for a URL whose host (netloc) contains
no allow-listed domain — the pattern occurs only in the query string; and
(b) `is_allowed_domain` answers `true` for a URL that contains no
allow-listed domain as a substring at all (even case-insensitively)
because `urlsplit` deletes the embedded tab before parsing, so "for every
string containing no allow-listed domain it returns false" is also false. -/
theorem c5_counterexample :
    (is_terabox_url "http://evil.com/?q=terabox.com" = true
     ∧ urlNetloc ("http://evil.com/?q=terabox.com").data = "evil.com".data
     ∧ (∀ p ∈ TERABOX_PATTERNS ++ ALLOWED_DOMAINS,
         occursB p.data ((urlNetloc ("http://evil.com/?q=terabox.com").data).map Char.toLower)
           = false))
    ∧ (is_allowed_domain "http://tera\tbox.com/x" = true
     ∧ (∀ p ∈ TERABOX_PATTERNS ++ ALLOWED_DOMAINS,
         occursB p.data (("http://tera\tbox.com/x").data.map Char.toLower) = false)) := by
  refine ⟨⟨by decide, by decide, by decide⟩, by decide, by decide⟩

/-- C5 witness: a URL mentioning no allow-listed domain anywhere, even
after sanitization. -/
theorem c5_witness :
    is_terabox_url "https://example.org/x" = false
    ∧ is_allowed_domain "https://example.org/x" = false :=
  c5_no_domain_false "https://example.org/x" (by decide)

/-- C9: a limiter with `limit = 3, window = 3600` started empty allows
three calls for user `u` made (in order) within the window of the first,
denies the fourth with a wait time between 0 and 3600, and — once the
window has elapsed past all recorded events — allows a subsequent call
again. -/
theorem c9_rate_limiter (u : Nat) (t1 t2 t3 t4 t5 : ℚ)
    (h12 : t1 ≤ t2) (h23 : t2 ≤ t3) (h34 : t3 ≤ t4) (h45 : t4 ≤ t5)
    (hwin : t4 - t1 < 3600) (hexp : 3600 ≤ t5 - t3) :
    ∃ w : ℚ, ∃ rlF : RateLimiter,
      runChecks u ⟨3, 3600, fun _ => []⟩ [t1, t2, t3, t4, t5]
        = ([.ok (true, 0), .ok (true, 0), .ok (true, 0), .ok (false, w), .ok (true, 0)], rlF)
      ∧ 0 ≤ w ∧ w ≤ 3600 := by
  have d21 : t2 - t1 < 3600 := by linarith
  have d31 : t3 - t1 < 3600 := by linarith
  have d32 : t3 - t2 < 3600 := by linarith
  have d41 : t4 - t1 < 3600 := hwin
  have d42 : t4 - t2 < 3600 := by linarith
  have d43 : t4 - t3 < 3600 := by linarith
  have n51 : ¬(t5 - t1 < 3600) := by linarith
  have n52 : ¬(t5 - t2 < 3600) := by linarith
  have n53 : ¬(t5 - t3 < 3600) := by linarith
  have s1 : RateLimiter.check ⟨3, 3600, fun _ => []⟩ u t1
      = (.ok (true, 0), ⟨3, 3600, Function.update (fun _ => []) u [t1]⟩) := by
    simp [RateLimiter.check]
  have s2 : RateLimiter.check ⟨3, 3600, Function.update (fun _ => []) u [t1]⟩ u t2
      = (.ok (true, 0), ⟨3, 3600,
          Function.update (Function.update (fun _ => []) u [t1]) u [t1, t2]⟩) := by
    simp [RateLimiter.check, Function.update_same, d21]
  have s3 : RateLimiter.check
        ⟨3, 3600, Function.update (Function.update (fun _ => []) u [t1]) u [t1, t2]⟩ u t3
      = (.ok (true, 0), ⟨3, 3600,
          Function.update (Function.update (Function.update (fun _ => []) u [t1]) u [t1, t2])
            u [t1, t2, t3]⟩) := by
    simp [RateLimiter.check, Function.update_same, d31, d32]
  have s4 : RateLimiter.check
        ⟨3, 3600, Function.update (Function.update (Function.update (fun _ => []) u [t1])
          u [t1, t2]) u [t1, t2, t3]⟩ u t4
      = (.ok (false, max 0 (3600 - (t4 - t1))), ⟨3, 3600,
          Function.update (Function.update (Function.update (Function.update (fun _ => [])
            u [t1]) u [t1, t2]) u [t1, t2, t3]) u [t1, t2, t3]⟩) := by
    simp [RateLimiter.check, Function.update_same, d41, d42, d43]
  have s5 : RateLimiter.check
        ⟨3, 3600, Function.update (Function.update (Function.update (Function.update
          (fun _ => []) u [t1]) u [t1, t2]) u [t1, t2, t3]) u [t1, t2, t3]⟩ u t5
      = (.ok (true, 0), ⟨3, 3600,
          Function.update (Function.update (Function.update (Function.update (Function.update
            (fun _ => []) u [t1]) u [t1, t2]) u [t1, t2, t3]) u [t1, t2, t3]) u [t5]⟩) := by
    simp [RateLimiter.check, Function.update_same, n51, n52, n53]
  refine ⟨max 0 (3600 - (t4 - t1)),
    ⟨3, 3600, Function.update (Function.update (Function.update (Function.update
      (Function.update (fun _ => []) u [t1]) u [t1, t2]) u [t1, t2, t3]) u [t1, t2, t3])
      u [t5]⟩, ?_, le_max_left _ _, ?_⟩
  · simp only [runChecks, s1, s2, s3, s4, s5]
  · exact max_le (by norm_num) (by linarith)

/-- C9 witness: calls at times 0, 1, 2, 3 and 3700 seconds. -/
theorem c9_witness :
    ∃ w : ℚ, ∃ rlF : RateLimiter,
      runChecks 1 ⟨3, 3600, fun _ => []⟩ [0, 1, 2, 3, 3700]
        = ([.ok (true, 0), .ok (true, 0), .ok (true, 0), .ok (false, w), .ok (true, 0)], rlF)
      ∧ 0 ≤ w ∧ w ≤ 3600 :=
  c9_rate_limiter 1 0 1 2 3 3700 (by norm_num) (by norm_num) (by norm_num) (by norm_num)
    (by norm_num) (by norm_num)
